import Mathlib

/-!
Verification of the scoring and aggregation engine of the zenbu-jibun
repository (`classify_rules.py` and `aggregate.py`).

Modelling conventions:
* Python floats are modelled by `ℚ` (exact rational arithmetic); the decimal
  constants of the source (`0.3`, `1.5`, …) are taken at their decimal value.
* `round(x, 4)` is modelled by `round4` (round to nearest at 4 decimals).
* Python dicts are modelled by ordered association lists with Python's
  assignment semantics (`pyInsert`: update in place, else append).
* Python's randomized `hash` on strings is an explicit parameter
  `pyHash : String → ℤ` of `build_summary_json`.
-/

namespace ZenbuJibun

/-! ## classify_rules.py : axis labels -/

def COMM_STYLE_LABELS : List String :=
  ["Lead_Directiveness", "Collaboration", "Active_Listening",
   "Logical_Expression", "Emotional_Expression", "Empathy_Care", "Brevity"]

def THINK_STYLE_LABELS : List String :=
  ["Structural_Thinking", "Abstractness", "Multi_Perspective",
   "Self_Reflection", "Future_Oriented", "Risk_Awareness"]

/-! ## classify_rules.py : MARKERS dictionary -/

def MARKERS : List (String × List String) :=
  [("directive", ["して", "してください", "しよう", "やりましょう", "行きます", "やって"]),
   ("assertive", ["決める", "決定", "確定", "〜だ", "〜である"]),
   ("proposal", ["結論", "方針", "次は", "まず", "方針は"]),
   ("collaborative", ["一緒に", "合わせて", "すり合わせ", "合意", "認識合わせ", "協力"]),
   ("options", ["もあり", "選択肢", "どちらか", "案"]),
   ("seek_opinion", ["どう思う", "意見", "考え", "どうでしょう", "どうかな"]),
   ("question_deep", ["なぜ", "どうやって", "具体的には", "背景は", "前提は", "理由は"]),
   ("question_clarify", ["教えて", "詳しく", "もう少し", "意図は", "確認", "聞きたい"]),
   ("question_emotion", ["困ってる", "大変", "どう感じ", "気持ち"]),
   ("structure", ["まず", "次に", "つまり", "結論", "根拠", "前提", "整理"]),
   ("causal", ["なので", "したがって", "なぜなら", "だから", "故に", "ため"]),
   ("analytical", ["要点", "因果", "仮説", "検証", "分析", "論理"]),
   ("emotion_positive", ["嬉しい", "楽しい", "好き", "ワクワク", "最高", "幸せ", "よかった"]),
   ("emotion_negative", ["不安", "つらい", "悲しい", "ムカつく", "焦る", "モヤモヤ", "困る"]),
   ("emotion_neutral", ["感じる", "思う", "気持ち"]),
   ("subjective", ["個人的に", "私は", "正直", "自分的に"]),
   ("empathy", ["わかる", "なるほど", "たしかに", "それな", "同意", "うんうん"]),
   ("care", ["お気持ち", "大変", "無理ない", "助かる", "気をつけて", "無理しないで"]),
   ("thanks", ["ありがとう", "ありがと", "感謝", "サンキュー", "ありです"]),
   ("apology", ["すみません", "ごめん", "申し訳", "失礼", "すまん"]),
   ("cushion", ["もしよければ", "差し支えなければ", "恐縮", "お手数", "できれば"]),
   ("digression", ["ちなみに", "余談", "話はそれます"]),
   ("connector", ["あと", "それと", "ついでに"]),
   ("classification", ["分類", "要素", "観点", "軸", "カテゴリ", "種類",
      "パターン", "タイプ", "グループ", "分けると", "2つ", "3つ"]),
   ("framework", ["KPI", "KGI", "フレーム", "ポイント", "体系",
      "整理すると", "まとめると", "分けて", "ステップ"]),
   ("hierarchy", ["大枠", "詳細", "上位", "下位", "中でも", "階層",
      "全体", "部分", "メイン", "サブ"]),
   ("perspective", ["一方で", "別の観点", "逆に", "他方", "視点", "見方",
      "別の", "もう一つ", "他の", "反対"]),
   ("multiple_options", ["メリデメ", "メリット", "デメリット", "トレードオフ", "両面",
      "良い点", "悪い点", "利点", "欠点", "両方"]),
   ("anticipate", ["という見方", "ただし", "反論", "懸念", "考慮",
      "でも", "しかし", "とはいえ", "ただ"]),
   ("self_reference", ["私は", "自分は", "自分としては", "個人的", "僕は", "俺は"]),
   ("mental_process", ["気づいた", "感じた", "迷う", "大事にしたい", "思った",
      "考えた", "悩む", "迷ってる", "わからない"]),
   ("self_improvement", ["苦手", "課題", "改善したい", "伸ばしたい", "振り返る", "反省",
      "直したい", "変えたい", "成長", "学び"]),
   ("future_time", ["今後", "将来", "これから", "次に", "中長期", "先",
      "明日", "来週", "来月", "来年", "後で", "いつか"]),
   ("planning", ["目指す", "ロードマップ", "スケジュール", "プラン", "ゴール", "計画",
      "予定", "準備", "段取り", "やること"]),
   ("possibility", ["できそう", "なりうる", "可能性", "想定", "見込み",
      "かも", "できる", "なるかも", "いけそう"]),
   ("risk", ["リスク", "懸念", "問題", "炎上", "批判", "副作用", "危険",
      "心配", "不安", "怖い", "まずい", "ヤバい"]),
   ("conditional", ["ただし", "場合によって", "依存する", "条件", "もし",
      "次第", "によって", "なら", "だったら"]),
   ("failure", ["最悪", "詰む", "破綻", "漏洩", "失敗", "ダメ",
      "無理", "できない", "厳しい", "間に合わない"])]

/-! ## String primitives (models of Python `str` operations) -/

/-- Test whether `pat` is an initial segment of the second argument. -/
def begMatch : List Char → List Char → Bool
  | [], _ => true
  | _ :: _, [] => false
  | p :: ps, c :: cs => p = c && begMatch ps cs

/-- Model of Python `pat in text` (substring membership). -/
def hasSub (pat : List Char) : List Char → Bool
  | [] => begMatch pat []
  | c :: cs => begMatch pat (c :: cs) || hasSub pat cs

/-- Auxiliary for `countSub`: `skip` characters are still blocked by the
previous (non-overlapping) occurrence. -/
def countSubAux (pat : List Char) : Nat → List Char → Nat
  | _, [] => 0
  | 0, c :: cs =>
    if begMatch pat (c :: cs) then
      1 + countSubAux pat (pat.length - 1) cs
    else
      countSubAux pat 0 cs
  | skip + 1, _ :: cs => countSubAux pat skip cs

/-- Model of Python `text.count(pat)` for nonempty `pat`:
number of non-overlapping occurrences, scanning left to right. -/
def countSub (pat text : List Char) : Nat := countSubAux pat 0 text

/-- Auxiliary for `countRuns`: the Bool argument records whether the previous
character satisfied the predicate. -/
def countRunsAux (p : Char → Bool) : Bool → List Char → Nat
  | _, [] => 0
  | prev, c :: cs =>
    (if p c && !prev then 1 else 0) + countRunsAux p (p c) cs

/-- Number of maximal runs of characters satisfying `p`
(model of `len(re.findall("[class]+", text))`). -/
def countRuns (p : Char → Bool) (l : List Char) : Nat :=
  countRunsAux p false l

/-- The character classes of the emoji regex in `count_emoji`. -/
def isEmojiChar (c : Char) : Bool :=
  (0x1F600 ≤ c.val && c.val ≤ 0x1F64F) ||
  (0x1F300 ≤ c.val && c.val ≤ 0x1F5FF) ||
  (0x1F680 ≤ c.val && c.val ≤ 0x1F6FF) ||
  (0x1F1E0 ≤ c.val && c.val ≤ 0x1F1FF)

/-- Model of Python's regex class `\d` (with `re.UNICODE`, the default for
`str`): the Unicode decimal-digit category Nd, as a range table
(Unicode 14.0, the table used by the CPython 3.11 `re` module). -/
def isUnicodeDigit (c : Char) : Bool :=
(0x0030 ≤ c.val && c.val ≤ 0x0039) ||
  (0x0660 ≤ c.val && c.val ≤ 0x0669) ||
  (0x06F0 ≤ c.val && c.val ≤ 0x06F9) ||
  (0x07C0 ≤ c.val && c.val ≤ 0x07C9) ||
  (0x0966 ≤ c.val && c.val ≤ 0x096F) ||
  (0x09E6 ≤ c.val && c.val ≤ 0x09EF) ||
  (0x0A66 ≤ c.val && c.val ≤ 0x0A6F) ||
  (0x0AE6 ≤ c.val && c.val ≤ 0x0AEF) ||
  (0x0B66 ≤ c.val && c.val ≤ 0x0B6F) ||
  (0x0BE6 ≤ c.val && c.val ≤ 0x0BEF) ||
  (0x0C66 ≤ c.val && c.val ≤ 0x0C6F) ||
  (0x0CE6 ≤ c.val && c.val ≤ 0x0CEF) ||
  (0x0D66 ≤ c.val && c.val ≤ 0x0D6F) ||
  (0x0DE6 ≤ c.val && c.val ≤ 0x0DEF) ||
  (0x0E50 ≤ c.val && c.val ≤ 0x0E59) ||
  (0x0ED0 ≤ c.val && c.val ≤ 0x0ED9) ||
  (0x0F20 ≤ c.val && c.val ≤ 0x0F29) ||
  (0x1040 ≤ c.val && c.val ≤ 0x1049) ||
  (0x1090 ≤ c.val && c.val ≤ 0x1099) ||
  (0x17E0 ≤ c.val && c.val ≤ 0x17E9) ||
  (0x1810 ≤ c.val && c.val ≤ 0x1819) ||
  (0x1946 ≤ c.val && c.val ≤ 0x194F) ||
  (0x19D0 ≤ c.val && c.val ≤ 0x19D9) ||
  (0x1A80 ≤ c.val && c.val ≤ 0x1A89) ||
  (0x1A90 ≤ c.val && c.val ≤ 0x1A99) ||
  (0x1B50 ≤ c.val && c.val ≤ 0x1B59) ||
  (0x1BB0 ≤ c.val && c.val ≤ 0x1BB9) ||
  (0x1C40 ≤ c.val && c.val ≤ 0x1C49) ||
  (0x1C50 ≤ c.val && c.val ≤ 0x1C59) ||
  (0xA620 ≤ c.val && c.val ≤ 0xA629) ||
  (0xA8D0 ≤ c.val && c.val ≤ 0xA8D9) ||
  (0xA900 ≤ c.val && c.val ≤ 0xA909) ||
  (0xA9D0 ≤ c.val && c.val ≤ 0xA9D9) ||
  (0xA9F0 ≤ c.val && c.val ≤ 0xA9F9) ||
  (0xAA50 ≤ c.val && c.val ≤ 0xAA59) ||
  (0xABF0 ≤ c.val && c.val ≤ 0xABF9) ||
  (0xFF10 ≤ c.val && c.val ≤ 0xFF19) ||
  (0x104A0 ≤ c.val && c.val ≤ 0x104A9) ||
  (0x10D30 ≤ c.val && c.val ≤ 0x10D39) ||
  (0x11066 ≤ c.val && c.val ≤ 0x1106F) ||
  (0x110F0 ≤ c.val && c.val ≤ 0x110F9) ||
  (0x11136 ≤ c.val && c.val ≤ 0x1113F) ||
  (0x111D0 ≤ c.val && c.val ≤ 0x111D9) ||
  (0x112F0 ≤ c.val && c.val ≤ 0x112F9) ||
  (0x11450 ≤ c.val && c.val ≤ 0x11459) ||
  (0x114D0 ≤ c.val && c.val ≤ 0x114D9) ||
  (0x11650 ≤ c.val && c.val ≤ 0x11659) ||
  (0x116C0 ≤ c.val && c.val ≤ 0x116C9) ||
  (0x11730 ≤ c.val && c.val ≤ 0x11739) ||
  (0x118E0 ≤ c.val && c.val ≤ 0x118E9) ||
  (0x11950 ≤ c.val && c.val ≤ 0x11959) ||
  (0x11C50 ≤ c.val && c.val ≤ 0x11C59) ||
  (0x11D50 ≤ c.val && c.val ≤ 0x11D59) ||
  (0x11DA0 ≤ c.val && c.val ≤ 0x11DA9) ||
  (0x16A60 ≤ c.val && c.val ≤ 0x16A69) ||
  (0x16AC0 ≤ c.val && c.val ≤ 0x16AC9) ||
  (0x16B50 ≤ c.val && c.val ≤ 0x16B59) ||
  (0x1D7CE ≤ c.val && c.val ≤ 0x1D7FF) ||
  (0x1E140 ≤ c.val && c.val ≤ 0x1E149) ||
  (0x1E2F0 ≤ c.val && c.val ≤ 0x1E2F9) ||
  (0x1E950 ≤ c.val && c.val ≤ 0x1E959) ||
  (0x1FBF0 ≤ c.val && c.val ≤ 0x1FBF9)

/-- Function `count_emoji` from classify_rules.py: counts maximal emoji runs. -/
def count_emoji (text : String) : Nat :=
  countRuns isEmojiChar text.data

/-- Model of Python `str.lower`. -/
def lowerChars (l : List Char) : List Char := l.map Char.toLower

/-! ## classify_rules.py : extract_features -/

def LIST_MARKERS : List String := ["1.", "2.", "3.", "①", "②", "③", "- ", "・"]

def POLITE_PATTERNS : List String := ["です", "ます", "ください", "いたします"]

/-- Function `extract_features` from classify_rules.py, as the ordered key/value list of
the Python dict it builds.  All values are numeric. -/
def extract_features (text : String) : List (String × ℚ) :=
  let t := text.data
  let tl := lowerChars t
  [("char_count", (t.length : ℚ)),
   ("sentence_count",
     ((max 1 (countSub "。".data t + countSub ".".data t + countSub "\n".data t) : ℕ) : ℚ)),
   ("question_mark", ((countSub "?".data t + countSub "？".data t : ℕ) : ℚ)),
   ("exclaim", ((min (countSub "!".data t + countSub "！".data t) 3 : ℕ) : ℚ)),
   ("emoji_count", ((min (count_emoji text) 3 : ℕ) : ℚ)),
   ("laugh", ((min (countSub "笑".data tl + countSub "w".data tl) 3 : ℕ) : ℚ)),
   ("list_marker", (((LIST_MARKERS.filter (fun m => hasSub m.data t)).length : ℕ) : ℚ))]
  ++ MARKERS.map (fun cw =>
       ("marker_" ++ cw.1, (((cw.2.filter (fun w => hasSub w.data tl)).length : ℕ) : ℚ)))
  ++ [("polite_count", (((POLITE_PATTERNS.map (fun p => countSub p.data t)).sum : ℕ) : ℚ)),
      ("number_count", ((countRuns isUnicodeDigit t : ℕ) : ℚ))]

/-- First-match lookup with default, the model of Python `dict.get(k, d)`. -/
def getD {α : Type} : List (String × α) → String → α → α
  | [], _, d => d
  | kv :: rest, k, d => if kv.1 = k then kv.2 else getD rest k d

/-- First-match lookup, the model of Python `dict[k]` / `dict.get(k)`. -/
def dictGet {α : Type} : List (String × α) → String → Option α
  | [], _ => none
  | kv :: rest, k => if kv.1 = k then some kv.2 else dictGet rest k

/-! ## Message records

The message dict rows produced by `db.fetch_my_messages_with_labels` and
consumed by the engine (`is_me` is the attribution flag the spec calls
`is_self`; `style_primary` / `think_primary` are `None` exactly when the
`labels` LEFT JOIN found no row). -/

structure Message where
  counterparty : String
  is_me : Bool
  text : String
  style_primary : Option String
  think_primary : Option String
deriving DecidableEq

/-! ## classify_rules.py : calculate_axis_scores -/

/-- Sum of one feature over the message group
(the `features_sum` defaultdict: absent keys are `0.0`). -/
def featuresSum (messages : List Message) (key : String) : ℚ :=
  (messages.map (fun m => getD (extract_features m.text) key 0)).sum

/-- Function `calculate_axis_scores` from classify_rules.py, as the ordered key/value
list of the Python dict it builds (13 entries, communication axes then
thinking axes, in the source's assignment order). -/
def calculate_axis_scores (messages : List Message) : List (String × ℚ) :=
  if messages.isEmpty then
    (COMM_STYLE_LABELS ++ THINK_STYLE_LABELS).map (fun axis => (axis, (0 : ℚ)))
  else
    let total_count : ℚ := (messages.length : ℚ)
    let total_chars : ℚ := (messages.map (fun m => (m.text.data.length : ℚ))).sum
    let fs : String → ℚ := featuresSum messages
    let directive : ℚ :=
      fs "marker_directive" + fs "marker_assertive" + fs "marker_proposal" * (3/2)
        - fs "question_mark" * (3/10)
    let collab : ℚ :=
      fs "marker_collaborative" * (3/2) + fs "marker_options" + fs "marker_seek_opinion"
    let listening : ℚ :=
      fs "question_mark" * (6/5) + fs "marker_question_deep" * 2
        + fs "marker_question_clarify" * (3/2) + fs "marker_question_emotion"
    let logical : ℚ :=
      fs "marker_structure" * (3/2) + fs "marker_causal" * (6/5)
        + fs "marker_analytical" + fs "list_marker" * (1/2)
    let emotional : ℚ :=
      fs "marker_emotion_positive" + fs "marker_emotion_negative"
        + fs "marker_emotion_neutral" * (4/5) + fs "marker_subjective" * (1/2)
        + (fs "exclaim" + fs "emoji_count" + fs "laugh") * (1/5)
    let empathy : ℚ :=
      fs "marker_empathy" * (3/2) + fs "marker_care" * (6/5) + fs "marker_thanks" * (6/5)
        + fs "marker_apology" + fs "marker_cushion" * (13/10) + fs "polite_count" * (1/20)
    let avg_chars : ℚ := total_chars / total_count
    let brevity : ℚ :=
      1 - min (avg_chars / 100) 1 - fs "marker_digression" / total_count * (1/5)
    let structural : ℚ :=
      fs "marker_classification" * (3/2) + fs "marker_framework" * (13/10)
        + fs "marker_hierarchy"
    let abstract : ℚ := fs "marker_abstract"
    let concrete : ℚ := fs "marker_concrete" + fs "number_count" * (1/5)
    let abstractness : ℚ :=
      if abstract = 0 ∧ concrete = 0 then 1/10
      else max 0 (min 1 ((abstract - concrete) / total_count + 3/10))
    let multi : ℚ :=
      fs "marker_perspective" * (3/2) + fs "marker_multiple_options" * (13/10)
        + fs "marker_anticipate"
    let reflective : ℚ :=
      fs "marker_self_reference" * (4/5) + fs "marker_mental_process" * (3/2)
        + fs "marker_self_improvement" * (9/5)
    let future : ℚ :=
      fs "marker_future_time" * (6/5) + fs "marker_planning" * (3/2)
        + fs "marker_possibility"
    let risk : ℚ :=
      fs "marker_risk" * (3/2) + fs "marker_conditional" + fs "marker_failure" * (6/5)
        + fs "marker_countermeasure" * (1/2)
    [("Lead_Directiveness", max 0 (directive / total_count)),
     ("Collaboration", collab / total_count),
     ("Active_Listening", listening / total_count),
     ("Logical_Expression", logical / total_count),
     ("Emotional_Expression", emotional / total_count),
     ("Empathy_Care", empathy / total_count),
     ("Brevity", max 0 brevity),
     ("Structural_Thinking", structural / total_count),
     ("Abstractness", abstractness),
     ("Multi_Perspective", multi / total_count),
     ("Self_Reflection", reflective / total_count),
     ("Future_Oriented", future / total_count),
     ("Risk_Awareness", risk / total_count)]

/-! ## aggregate.py : dict plumbing -/

/-- Python dict assignment `d[k] = v`: update the key in place when present,
otherwise append at the end (insertion order). -/
def pyInsert {α : Type} : List (String × α) → String → α → List (String × α)
  | [], k, v => [(k, v)]
  | kv :: rest, k, v =>
    if kv.1 = k then (k, v) :: rest else kv :: pyInsert rest k v

/-- Auxiliary for `uniqueFirst`: `seen` holds the values already emitted. -/
def uniqueFirstAux (seen : List String) : List String → List String
  | [] => []
  | x :: xs =>
    if x ∈ seen then uniqueFirstAux seen xs
    else x :: uniqueFirstAux (x :: seen) xs

/-- First-appearance-order deduplication
(model of `pandas.Series.unique` on the counterparty column). -/
def uniqueFirst (l : List String) : List String := uniqueFirstAux [] l

/-- Model of Python `round(x, 4)` (round to nearest at 4 decimal places). -/
def round4 (x : ℚ) : ℚ := (round (x * 10000) : ℚ) / 10000

/-! ## aggregate.py : distributions -/

/-- The value shape produced by `_empty_dist` / `_calc_dist`:
`{"style_dist": ..., "think_dist": ..., "count": ...}`. -/
structure Dist where
  style_dist : List (String × ℚ)
  think_dist : List (String × ℚ)
  count : ℤ
deriving DecidableEq

def _empty_dist (count : ℤ) : Dist :=
  { style_dist := COMM_STYLE_LABELS.map (fun k => (k, (0 : ℚ)))
    think_dist := THINK_STYLE_LABELS.map (fun k => (k, (0 : ℚ)))
    count := count }

/-- Function `_calc_dist` from aggregate.py: per-label shares of the categorical
`style_primary` / `think_primary` columns (`value_counts().get(label, 0)`
is the number of rows whose primary label equals `label`). -/
def _calc_dist (df : List Message) : Dist :=
  let count := df.length
  if count = 0 then _empty_dist 0
  else
    { style_dist := COMM_STYLE_LABELS.map (fun label =>
        (label, round4 (((df.filter (fun m => m.style_primary = some label)).length : ℚ)
                          / (count : ℚ))))
      think_dist := THINK_STYLE_LABELS.map (fun label =>
        (label, round4 (((df.filter (fun m => m.think_primary = some label)).length : ℚ)
                          / (count : ℚ))))
      count := (count : ℤ) }

/-- The rows kept by `df.dropna(subset=["style_primary", "think_primary"])`. -/
def labelled (m : Message) : Bool :=
  m.style_primary.isSome && m.think_primary.isSome

/-- Function `build_distribution` from aggregate.py. -/
def build_distribution (messages : List Message) : List (String × Dist) :=
  if messages.isEmpty then [("global", _empty_dist 0)]
  else
    let df := messages.filter labelled
    if df.isEmpty then [("global", _empty_dist 0)]
    else
      (uniqueFirst (df.map (fun m => m.counterparty))).foldl
        (fun result cp =>
          pyInsert result cp (_calc_dist (df.filter (fun m => m.counterparty = cp))))
        [("global", _calc_dist df)]

/-! ## aggregate.py : diffs -/

/-- The value shape `{"style_diff": ..., "think_diff": ...}` built by
`calc_diff_from_global`. -/
structure DiffPair where
  style_diff : List (String × ℚ)
  think_diff : List (String × ℚ)
deriving DecidableEq

/-- Function `calc_diff_from_global` from aggregate.py. -/
def calc_diff_from_global (dist_result : List (String × Dist)) :
    List (String × DiffPair) :=
  let global_style := ((dictGet dist_result "global").map Dist.style_dist).getD []
  let global_think := ((dictGet dist_result "global").map Dist.think_dist).getD []
  (dist_result.filter (fun p => p.1 ≠ "global")).map (fun p =>
    (p.1,
     { style_diff := COMM_STYLE_LABELS.map (fun label =>
         (label, round4 (getD p.2.style_dist label 0 - getD global_style label 0)))
       think_diff := THINK_STYLE_LABELS.map (fun label =>
         (label, round4 (getD p.2.think_dist label 0 - getD global_think label 0))) }))

/-- One entry of the list built by `top3_diff`:
`{"label": ..., "kind": ..., "diff": ...}`. -/
structure T3Item where
  label : String
  kind : String
  diff : ℚ
deriving DecidableEq

/-- The Bool comparison realizing `items.sort(key=abs-of-diff, reverse=True)`:
a stable sort that puts larger absolute diffs first. -/
def t3le (a b : T3Item) : Bool := decide (|b.diff| ≤ |a.diff|)

/-- The merged item pool built by `top3_diff`: the communication diffs
(kind `"コミュニケーション"`) followed by the thinking diffs (kind `"思考"`). -/
def top3_items (cp_diffs : DiffPair) : List T3Item :=
  cp_diffs.style_diff.map (fun lv => T3Item.mk lv.1 "コミュニケーション" lv.2)
    ++ cp_diffs.think_diff.map (fun lv => T3Item.mk lv.1 "思考" lv.2)

/-- Function `top3_diff` from aggregate.py. -/
def top3_diff (diffs : List (String × DiffPair)) (counterparty : String) :
    List T3Item :=
  match dictGet diffs counterparty with
  | none => []
  | some cp_diffs => ((top3_items cp_diffs).mergeSort t3le).take 3

/-! ## aggregate.py : build_summary_json -/

/-- JSON-like values, the shape of the export object. -/
inductive JVal where
  | num : ℚ → JVal
  | str : String → JVal
  | obj : List (String × JVal) → JVal
  | arr : List JVal → JVal

/-- Field access on a JSON object. -/
def JVal.get (j : JVal) (k : String) : Option JVal :=
  match j with
  | .obj fields => dictGet fields k
  | _ => none

def Dist.toObj (d : Dist) : JVal :=
  .obj [("style_dist", .obj (d.style_dist.map (fun p => (p.1, JVal.num p.2)))),
        ("think_dist", .obj (d.think_dist.map (fun p => (p.1, JVal.num p.2)))),
        ("count", .num (d.count : ℚ))]

def DiffPair.toObj (d : DiffPair) : JVal :=
  .obj [("style_diff", .obj (d.style_diff.map (fun p => (p.1, JVal.num p.2)))),
        ("think_diff", .obj (d.think_diff.map (fun p => (p.1, JVal.num p.2))))]

def T3Item.toObj (it : T3Item) : JVal :=
  .obj [("label", .str it.label), ("kind", .str it.kind), ("diff", .num it.diff)]

/-- Zero-padding to width 5, the format `%05d` for `0 ≤ n < 99999`. -/
def pad5 (n : ℕ) : String :=
  let s := toString n
  String.mk (List.replicate (5 - s.length) '0') ++ s

/-- The `room_XXXXX` pseudonym key derived from a counterparty name
(`f"room_\x7bhash(cp) % 99999:05d\x7d"`). -/
def roomKey (pyHash : String → ℤ) (cp : String) : String :=
  "room_" ++ pad5 (pyHash cp % 99999).toNat

/-- The per-counterparty entry assembled inside `build_summary_json`. -/
def cp_entry (diffs : List (String × DiffPair)) (p : String × Dist) : JVal :=
  .obj
    [("display_name", .str p.1),
     ("count", .num (p.2.count : ℚ)),
     ("style_dist", .obj (p.2.style_dist.map (fun q => (q.1, JVal.num q.2)))),
     ("think_dist", .obj (p.2.think_dist.map (fun q => (q.1, JVal.num q.2)))),
     ("diff_from_global",
       match dictGet diffs p.1 with
       | some dp => dp.toObj
       | none => .obj []),
     ("top3_diff", .arr ((top3_diff diffs p.1).map T3Item.toObj))]

/-- The `by_counterparty` dict assembled inside `build_summary_json`. -/
def by_counterparty_obj (dist_result : List (String × Dist))
    (diffs : List (String × DiffPair)) (pyHash : String → ℤ) :
    List (String × JVal) :=
  (dist_result.filter (fun p => p.1 ≠ "global")).foldl
    (fun acc p => pyInsert acc (roomKey pyHash p.1) (cp_entry diffs p)) []

/-- Function `build_summary_json` from aggregate.py.  Python's process-randomized
string `hash` is passed in as `pyHash`. -/
def build_summary_json (dist_result : List (String × Dist))
    (diffs : List (String × DiffPair)) (my_name : String)
    (pyHash : String → ℤ) : JVal :=
  .obj
    [("meta", .obj
       [("my_name_hash", .str ("user_" ++ pad5 (pyHash my_name % 99999).toNat)),
        ("note", .str "This JSON contains only aggregated statistics. No raw message content is included.")]),
     ("global",
       match dictGet dist_result "global" with
       | some d => d.toObj
       | none => .obj []),
     ("by_counterparty", .obj (by_counterparty_obj dist_result diffs pyHash))]

/-! ## Serialization (model of `json.dumps(summary, ensure_ascii=False)`)

Only the facts that string data appears verbatim and that object keys are
emitted matter for the claims; the exact rendering of numbers is a model. -/

def ratStr (q : ℚ) : String :=
  toString q.num ++ (if q.den = 1 then "" else "/" ++ toString q.den)

mutual

def JVal.ser : JVal → String
  | .num q => ratStr q
  | .str s => "\"" ++ s ++ "\""
  | .obj fields => "\x7b" ++ serFields fields ++ "\x7d"
  | .arr items => "[" ++ serItems items ++ "]"

def serFields : List (String × JVal) → String
  | [] => ""
  | [kv] => "\"" ++ kv.1 ++ "\": " ++ JVal.ser kv.2
  | kv :: rest => "\"" ++ kv.1 ++ "\": " ++ JVal.ser kv.2 ++ ", " ++ serFields rest

def serItems : List JVal → String
  | [] => ""
  | [v] => JVal.ser v
  | v :: rest => JVal.ser v ++ ", " ++ serItems rest

end

/-! ## Auxiliary definitions for the theorems -/

/-- Agreement on the only message fields the aggregation pipeline reads
(`counterparty`, `style_primary`, `think_primary`); the `text`, `is_me` and
remaining fields may differ arbitrarily. -/
def SameView (m₁ m₂ : Message) : Prop :=
  m₁.counterparty = m₂.counterparty ∧
  m₁.style_primary = m₂.style_primary ∧
  m₁.think_primary = m₂.think_primary

/-- A message row that is not self-authored but carries labels. -/
def msgNotMe : Message :=
  ⟨"A", false, "hi", some "Lead_Directiveness", some "Structural_Thinking"⟩

/-- A self-authored labelled message whose text is the string `"global"`. -/
def msgTextGlobal : Message :=
  ⟨"A", true, "global", some "Lead_Directiveness", some "Structural_Thinking"⟩

/-- The summary produced for `[msgTextGlobal]` (with a fixed hash function). -/
def summaryTextGlobal : JVal :=
  build_summary_json (build_distribution [msgTextGlobal])
    (calc_diff_from_global (build_distribution [msgTextGlobal])) "me" (fun _ => 0)

/-- Two labelled messages, one of whose counterparty is literally `"global"`. -/
def msgsGlobalClash : List Message :=
  [⟨"global", true, "x", some "Lead_Directiveness", some "Structural_Thinking"⟩,
   ⟨"A", true, "y", some "Collaboration", some "Abstractness"⟩]

/-- A concrete diff pair used as a witness input. -/
def dpW : DiffPair := ⟨[("Ask", 3/10), ("Align", 1/20)], [("Lead", -(1/4))]⟩

/-- A labelled self message with text `"hello"`. -/
def mHello : Message :=
  ⟨"A", true, "hello", some "Lead_Directiveness", some "Structural_Thinking"⟩

/-- The same row as `mHello` except for its text. -/
def mSecret : Message :=
  ⟨"A", true, "secret", some "Lead_Directiveness", some "Structural_Thinking"⟩

/-! ## Helper lemmas -/

/- Batteries marks the `Rat` field operations `@[irreducible]`; restore
reducibility so that concrete witnesses evaluate by `decide`. -/
set_option allowUnsafeReducibility true in
attribute [semireducible] Rat.add Rat.mul Rat.inv Rat.div Rat.sub

/-- The (text-independent) key list of the feature dict. -/
def featureKeys : List String :=
  ["char_count", "sentence_count", "question_mark", "exclaim", "emoji_count",
   "laugh", "list_marker"]
  ++ MARKERS.map (fun cw => "marker_" ++ cw.1)
  ++ ["polite_count", "number_count"]

theorem extract_features_keys (t : String) :
    (extract_features t).map Prod.fst = featureKeys := by
  simp [extract_features, featureKeys]

theorem getD_of_not_mem {α : Type} (l : List (String × α)) (k : String) (d : α)
    (h : k ∉ l.map Prod.fst) : getD l k d = d := by
  induction l with
  | nil => rfl
  | cons kv rest ih =>
    simp only [List.map_cons, List.mem_cons, not_or] at h
    simp [getD, h.1, ih h.2, Ne.symm h.1]

theorem getD_nonneg_of (l : List (String × ℚ)) (h : ∀ p ∈ l, 0 ≤ p.2)
    (k : String) : 0 ≤ getD l k 0 := by
  induction l with
  | nil => simp [getD]
  | cons kv rest ih =>
    simp only [getD]
    split
    · exact h kv (List.mem_cons_self kv rest)
    · exact ih fun p hp => h p (List.mem_cons_of_mem kv hp)

theorem extract_features_nonneg (t : String) :
    ∀ p ∈ extract_features t, 0 ≤ p.2 := by
  intro p hp
  simp only [extract_features] at hp
  rw [List.mem_append, List.mem_append] at hp
  rcases hp with (hp | hp) | hp
  · fin_cases hp <;> positivity
  · rw [List.mem_map] at hp
    obtain ⟨cw, _, rfl⟩ := hp
    positivity
  · fin_cases hp <;> positivity

theorem featuresSum_nonneg (messages : List Message) (k : String) :
    0 ≤ featuresSum messages k := by
  unfold featuresSum
  induction messages with
  | nil => simp
  | cons m rest ih =>
    simp only [List.map_cons, List.sum_cons]
    have := getD_nonneg_of (extract_features m.text) (extract_features_nonneg m.text) k
    linarith

theorem featuresSum_of_not_key (messages : List Message) (k : String)
    (h : k ∉ featureKeys) : featuresSum messages k = 0 := by
  unfold featuresSum
  induction messages with
  | nil => simp
  | cons m rest ih =>
    simp only [List.map_cons, List.sum_cons, ih]
    rw [getD_of_not_mem _ _ _ (by rw [extract_features_keys]; exact h)]
    simp

theorem dictGet_pyInsert_self {α : Type} (d : List (String × α)) (k : String)
    (v : α) : dictGet (pyInsert d k v) k = some v := by
  induction d with
  | nil => simp [pyInsert, dictGet]
  | cons kv rest ih =>
    by_cases h : kv.1 = k <;> simp [pyInsert, h, dictGet, ih]

theorem dictGet_pyInsert_ne {α : Type} (d : List (String × α)) (k' k : String)
    (v : α) (h : k' ≠ k) : dictGet (pyInsert d k' v) k = dictGet d k := by
  induction d with
  | nil => simp [pyInsert, dictGet, h]
  | cons kv rest ih =>
    by_cases h2 : kv.1 = k'
    · simp [pyInsert, h2, dictGet, h]
    · simp [pyInsert, h2, dictGet, ih]

theorem mem_pyInsert {α : Type} (d : List (String × α)) (k : String) (v : α)
    (p : String × α) (hp : p ∈ pyInsert d k v) : p ∈ d ∨ p = (k, v) := by
  induction d with
  | nil => simpa [pyInsert] using hp
  | cons kv rest ih =>
    by_cases h : kv.1 = k
    · simp only [pyInsert, if_pos h, List.mem_cons] at hp
      rcases hp with rfl | hp
      · exact Or.inr rfl
      · exact Or.inl (List.mem_cons_of_mem kv hp)
    · simp only [pyInsert, if_neg h, List.mem_cons] at hp
      rcases hp with rfl | hp
      · exact Or.inl (List.mem_cons_self _ _)
      · rcases ih hp with h2 | h2
        · exact Or.inl (List.mem_cons_of_mem kv h2)
        · exact Or.inr h2

theorem dictGet_foldl_pyInsert_not_mem {α β : Type} (g : β → String)
    (f : β → α) (l : List β) (init : List (String × α)) (k : String)
    (hk : k ∉ l.map g) :
    dictGet (l.foldl (fun acc x => pyInsert acc (g x) (f x)) init) k =
      dictGet init k := by
  induction l generalizing init with
  | nil => rfl
  | cons y ys ih =>
    simp only [List.map_cons, List.mem_cons, not_or] at hk
    simp only [List.foldl_cons]
    rw [ih _ hk.2, dictGet_pyInsert_ne _ _ _ _ (Ne.symm hk.1)]

theorem dictGet_foldl_pyInsert_mem {α β : Type} (g : β → String) (f : β → α)
    (l : List β) (init : List (String × α)) (x : β) (hx : x ∈ l)
    (hnd : (l.map g).Nodup) :
    dictGet (l.foldl (fun acc y => pyInsert acc (g y) (f y)) init) (g x) =
      some (f x) := by
  induction l generalizing init with
  | nil => cases hx
  | cons y ys ih =>
    simp only [List.map_cons, List.nodup_cons] at hnd
    rcases List.mem_cons.mp hx with rfl | hx2
    · simp only [List.foldl_cons]
      rw [dictGet_foldl_pyInsert_not_mem g f ys _ _ hnd.1,
        dictGet_pyInsert_self]
    · simp only [List.foldl_cons]
      exact ih _ hx2 hnd.2

theorem mem_foldl_pyInsert {α β : Type} (g : β → String) (f : β → α)
    (l : List β) (init : List (String × α)) (p : String × α)
    (hp : p ∈ l.foldl (fun acc x => pyInsert acc (g x) (f x)) init) :
    p ∈ init ∨ ∃ x ∈ l, p = (g x, f x) := by
  induction l generalizing init with
  | nil => exact Or.inl hp
  | cons y ys ih =>
    simp only [List.foldl_cons] at hp
    rcases ih _ hp with hin | ⟨x, hx, rfl⟩
    · rcases mem_pyInsert _ _ _ _ hin with h2 | h2
      · exact Or.inl h2
      · exact Or.inr ⟨y, List.mem_cons_self _ _, h2⟩
    · exact Or.inr ⟨x, List.mem_cons_of_mem _ hx, rfl⟩

theorem mem_uniqueFirstAux (l : List String) :
    ∀ seen a, a ∈ uniqueFirstAux seen l ↔ a ∈ l ∧ a ∉ seen := by
  induction l with
  | nil => intro seen a; simp [uniqueFirstAux]
  | cons x xs ih =>
    intro seen a
    by_cases hx : x ∈ seen
    · simp only [uniqueFirstAux, if_pos hx, ih, List.mem_cons]
      constructor
      · rintro ⟨ha, hs⟩
        exact ⟨Or.inr ha, hs⟩
      · rintro ⟨ha | ha, hs⟩
        · exact absurd (ha ▸ hx) hs
        · exact ⟨ha, hs⟩
    · simp only [uniqueFirstAux, if_neg hx, List.mem_cons, ih]
      constructor
      · rintro (rfl | ⟨ha, hs⟩)
        · exact ⟨Or.inl rfl, hx⟩
        · exact ⟨Or.inr ha, fun hs2 => hs (Or.inr hs2)⟩
      · rintro ⟨rfl | ha, hs⟩
        · exact Or.inl rfl
        · by_cases hax : a = x
          · exact Or.inl hax
          · exact Or.inr ⟨ha, by simp [List.mem_cons, hax, hs]⟩

theorem nodup_uniqueFirstAux (l : List String) :
    ∀ seen, (uniqueFirstAux seen l).Nodup := by
  induction l with
  | nil => intro seen; simp [uniqueFirstAux]
  | cons x xs ih =>
    intro seen
    by_cases hx : x ∈ seen
    · simpa only [uniqueFirstAux, if_pos hx] using ih seen
    · simp only [uniqueFirstAux, if_neg hx]
      refine List.nodup_cons.mpr ⟨fun hmem => ?_, ih _⟩
      exact ((mem_uniqueFirstAux xs (x :: seen) x).mp hmem).2
        (List.mem_cons_self x seen)

theorem mem_uniqueFirst (l : List String) (a : String) :
    a ∈ uniqueFirst l ↔ a ∈ l := by
  simp [uniqueFirst, mem_uniqueFirstAux]

theorem nodup_uniqueFirst (l : List String) : (uniqueFirst l).Nodup :=
  nodup_uniqueFirstAux l []

theorem getD_map_of_mem (labels : List String) (f : String → ℚ) (a : String)
    (ha : a ∈ labels) :
    getD (labels.map (fun l => (l, f l))) a 0 = f a := by
  induction labels with
  | nil => cases ha
  | cons x xs ih =>
    simp only [List.map_cons, getD]
    by_cases h : x = a
    · subst h; simp
    · rcases List.mem_cons.mp ha with rfl | ha2
      · exact absurd rfl h
      · simp [h, ih ha2]

theorem dictGet_map_pairs {α β : Type} (l : List (String × α))
    (F : String × α → β) (k : String) (x : α) (hmem : (k, x) ∈ l)
    (hnd : (l.map Prod.fst).Nodup) :
    dictGet (l.map (fun p => (p.1, F p))) k = some (F (k, x)) := by
  induction l with
  | nil => cases hmem
  | cons p ps ih =>
    simp only [List.map_cons, List.nodup_cons] at hnd
    rcases List.mem_cons.mp hmem with heq | h2
    · cases heq
      simp [dictGet]
    · have hk : k ∈ ps.map Prod.fst := List.mem_map.mpr ⟨(k, x), h2, rfl⟩
      have hne : p.1 ≠ k := fun he => hnd.1 (he ▸ hk)
      simp [dictGet, hne, ih h2 hnd.2]

theorem foldl_congr_fun {α β : Type} (f₁ f₂ : α → β → α)
    (h : ∀ acc x, f₁ acc x = f₂ acc x) :
    ∀ (l : List β) (init : α), l.foldl f₁ init = l.foldl f₂ init := by
  intro l
  induction l with
  | nil => intro init; rfl
  | cons y ys ih =>
    intro init
    simp only [List.foldl_cons, h init y, ih]

theorem build_distribution_of_no_labelled (messages : List Message)
    (h : messages.filter labelled = []) :
    build_distribution messages = [("global", _empty_dist 0)] := by
  by_cases h1 : messages.isEmpty
  · rw [build_distribution, if_pos h1]
  · rw [build_distribution, if_neg (by simp [h1])]
    simp [h]

theorem build_distribution_of_labelled (messages : List Message)
    (h : messages.filter labelled ≠ []) :
    build_distribution messages =
      (uniqueFirst ((messages.filter labelled).map (fun m => m.counterparty))).foldl
        (fun result cp => pyInsert result cp
          (_calc_dist ((messages.filter labelled).filter
            (fun m => m.counterparty = cp))))
        [("global", _calc_dist (messages.filter labelled))] := by
  have h1 : messages.isEmpty = false := by
    cases messages with
    | nil => exact absurd rfl h
    | cons m rest => rfl
  rw [build_distribution, if_neg (by simp [h1])]
  simp only [List.isEmpty_iff]
  rw [if_neg h]

theorem axis_abstractness_eq (messages : List Message)
    (h : messages.isEmpty = false) :
    getD (calculate_axis_scores messages) "Abstractness" 0 =
      (if featuresSum messages "marker_abstract" = 0 ∧
          featuresSum messages "marker_concrete" +
            featuresSum messages "number_count" * (1/5) = 0
       then 1/10
       else max 0 (min 1 ((featuresSum messages "marker_abstract" -
         (featuresSum messages "marker_concrete" +
           featuresSum messages "number_count" * (1/5)))
           / (messages.length : ℚ) + 3/10))) := by
  simp [calculate_axis_scores, h, getD]

/-! ## Claim theorems -/

/-- C3: `calculate_axis_scores` always returns a mapping whose keys are
exactly the 13 fixed axis labels (the 7 communication labels followed by the
6 thinking labels), every returned score is non-negative, and on the empty
list all 13 values are `0.0`. -/
theorem C3_axis_score_invariants (messages : List Message) :
    (calculate_axis_scores messages).map Prod.fst =
      COMM_STYLE_LABELS ++ THINK_STYLE_LABELS ∧
    (∀ p ∈ calculate_axis_scores messages, 0 ≤ p.2) ∧
    calculate_axis_scores [] =
      (COMM_STYLE_LABELS ++ THINK_STYLE_LABELS).map (fun axis => (axis, (0 : ℚ))) := by
  refine ⟨?_, ?_, rfl⟩
  · by_cases h : messages.isEmpty <;>
      simp [calculate_axis_scores, h, COMM_STYLE_LABELS, THINK_STYLE_LABELS]
  · intro p hp
    by_cases h : messages.isEmpty
    · simp only [calculate_axis_scores, h, if_true, List.mem_map] at hp
      obtain ⟨axis, _, rfl⟩ := hp
      exact le_refl 0
    · have fsn := featuresSum_nonneg messages
      rw [calculate_axis_scores, if_neg (by simp [h])] at hp
      simp only [List.mem_cons, List.not_mem_nil, or_false] at hp
      rcases hp with rfl | rfl | rfl | rfl | rfl | rfl | rfl | rfl | rfl | rfl |
        rfl | rfl | rfl
      all_goals dsimp only
      · exact le_max_left 0 _
      · refine div_nonneg ?_ (Nat.cast_nonneg _)
        linarith [fsn "marker_collaborative", fsn "marker_options",
          fsn "marker_seek_opinion"]
      · refine div_nonneg ?_ (Nat.cast_nonneg _)
        linarith [fsn "question_mark", fsn "marker_question_deep",
          fsn "marker_question_clarify", fsn "marker_question_emotion"]
      · refine div_nonneg ?_ (Nat.cast_nonneg _)
        linarith [fsn "marker_structure", fsn "marker_causal",
          fsn "marker_analytical", fsn "list_marker"]
      · refine div_nonneg ?_ (Nat.cast_nonneg _)
        linarith [fsn "marker_emotion_positive", fsn "marker_emotion_negative",
          fsn "marker_emotion_neutral", fsn "marker_subjective",
          fsn "exclaim", fsn "emoji_count", fsn "laugh"]
      · refine div_nonneg ?_ (Nat.cast_nonneg _)
        linarith [fsn "marker_empathy", fsn "marker_care", fsn "marker_thanks",
          fsn "marker_apology", fsn "marker_cushion", fsn "polite_count"]
      · exact le_max_left 0 _
      · refine div_nonneg ?_ (Nat.cast_nonneg _)
        linarith [fsn "marker_classification", fsn "marker_framework",
          fsn "marker_hierarchy"]
      · split
        · norm_num
        · exact le_max_left 0 _
      · refine div_nonneg ?_ (Nat.cast_nonneg _)
        linarith [fsn "marker_perspective", fsn "marker_multiple_options",
          fsn "marker_anticipate"]
      · refine div_nonneg ?_ (Nat.cast_nonneg _)
        linarith [fsn "marker_self_reference", fsn "marker_mental_process",
          fsn "marker_self_improvement"]
      · refine div_nonneg ?_ (Nat.cast_nonneg _)
        linarith [fsn "marker_future_time", fsn "marker_planning",
          fsn "marker_possibility"]
      · refine div_nonneg ?_ (Nat.cast_nonneg _)
        linarith [fsn "marker_risk", fsn "marker_conditional",
          fsn "marker_failure", fsn "marker_countermeasure"]

/-- Witness for C3 at a concrete input. -/
theorem C3_axis_score_invariants_witness :
    ("Lead_Directiveness", (0 : ℚ)) ∈ calculate_axis_scores [] ∧
      (0 : ℚ) ≤ ("Lead_Directiveness", (0 : ℚ)).2 :=
  ⟨by decide, (C3_axis_score_invariants []).2.1 _ (by decide)⟩

/-- C4 (amended): of the four punctuation-derived features only `exclaim`,
`emoji_count` and `laugh` are capped at the ceiling 3; `question_mark` is the
raw uncapped count (see the counterexample). -/
theorem C4_punctuation_caps (t : String) :
    getD (extract_features t) "exclaim" 0 ≤ 3 ∧
    getD (extract_features t) "emoji_count" 0 ≤ 3 ∧
    getD (extract_features t) "laugh" 0 ≤ 3 := by
  have h1 : getD (extract_features t) "exclaim" 0 =
      ((min (countSub "!".data t.data + countSub "！".data t.data) 3 : ℕ) : ℚ) := by
    simp [extract_features, getD]
  have h2 : getD (extract_features t) "emoji_count" 0 =
      ((min (count_emoji t) 3 : ℕ) : ℚ) := by
    simp [extract_features, getD]
  have h3 : getD (extract_features t) "laugh" 0 =
      ((min (countSub "笑".data (lowerChars t.data)
          + countSub "w".data (lowerChars t.data)) 3 : ℕ) : ℚ) := by
    simp [extract_features, getD]
  refine ⟨?_, ?_, ?_⟩
  · rw [h1]; exact_mod_cast Nat.min_le_right _ 3
  · rw [h2]; exact_mod_cast Nat.min_le_right _ 3
  · rw [h3]; exact_mod_cast Nat.min_le_right _ 3

/-- Counterexample for C4 as stated: `question_mark` is not capped at 3 (the
text `"????"` yields 4). -/
theorem C4_counterexample :
    getD (extract_features "????") "question_mark" 0 = 4 ∧
      (3 : ℚ) < getD (extract_features "????") "question_mark" 0 := by
  decide

/-- C8: on a non-empty message set whose abstract-marker sum, concrete-marker
sum and numeric-token count are all zero, the Abstractness score is exactly
`0.1`; otherwise it is `(abstract − concrete)/count` shifted by `+0.3` and
clamped to `[0, 1]`, with `concrete = concrete markers + number_count × 0.2`.
(No MARKERS category is named `abstract` or `concrete`, so those two sums are
identically zero and the degenerate case is decided by `number_count`.) -/
theorem C8_abstractness (messages : List Message) (hne : messages ≠ []) :
    (featuresSum messages "marker_abstract" = 0 ∧
     featuresSum messages "marker_concrete" = 0 ∧
     featuresSum messages "number_count" = 0 →
      getD (calculate_axis_scores messages) "Abstractness" 0 = 1/10) ∧
    (¬ (featuresSum messages "marker_abstract" = 0 ∧
        featuresSum messages "marker_concrete" = 0 ∧
        featuresSum messages "number_count" = 0) →
      getD (calculate_axis_scores messages) "Abstractness" 0 =
        max 0 (min 1 ((featuresSum messages "marker_abstract" -
          (featuresSum messages "marker_concrete" +
            featuresSum messages "number_count" * (1/5)))
            / (messages.length : ℚ) + 3/10))) := by
  have hF : messages.isEmpty = false := by
    simpa [List.isEmpty_iff] using hne
  have habs : featuresSum messages "marker_abstract" = 0 :=
    featuresSum_of_not_key _ _ (by decide)
  have hcon : featuresSum messages "marker_concrete" = 0 :=
    featuresSum_of_not_key _ _ (by decide)
  rw [axis_abstractness_eq messages hF]
  constructor
  · rintro ⟨h1, h2, h3⟩
    rw [if_pos ⟨h1, by rw [h2, h3]; ring⟩]
  · intro hcond
    rw [if_neg ?_]
    rintro ⟨h1, h2⟩
    apply hcond
    refine ⟨habs, hcon, ?_⟩
    rw [hcon] at h2
    linarith

/-- C1 (amended): `build_distribution` restricts the analysis to the rows
whose `style_primary` and `think_primary` are both non-null — in the pipeline
these are exactly the classified self-authored messages, but the function does
not inspect `is_me` itself (see the counterexample).  When no labelled row
remains it returns exactly `{"global": empty Distribution}` with count 0 and
all 13 axis scores 0.0, and unlabelled rows never contribute. -/
theorem C1_build_distribution_restricts (messages : List Message) :
    build_distribution messages =
      build_distribution (messages.filter labelled) ∧
    (messages.filter labelled = [] →
      build_distribution messages = [("global", _empty_dist 0)]) ∧
    (_empty_dist 0).count = 0 ∧
    (∀ label ∈ COMM_STYLE_LABELS, getD (_empty_dist 0).style_dist label 0 = 0) ∧
    (∀ label ∈ THINK_STYLE_LABELS, getD (_empty_dist 0).think_dist label 0 = 0) := by
  have hff : (messages.filter labelled).filter labelled =
      messages.filter labelled := by
    rw [List.filter_filter]
    exact List.filter_congr (fun a _ => Bool.and_self (labelled a))
  refine ⟨?_, build_distribution_of_no_labelled messages, rfl, ?_, ?_⟩
  · by_cases h : messages.filter labelled = []
    · rw [build_distribution_of_no_labelled messages h,
        build_distribution_of_no_labelled _ (by rw [hff, h])]
    · rw [build_distribution_of_labelled messages h,
        build_distribution_of_labelled _ (by rw [hff]; exact h), hff]
  · intro label hl
    exact getD_map_of_mem COMM_STYLE_LABELS (fun _ => 0) label hl
  · intro label hl
    exact getD_map_of_mem THINK_STYLE_LABELS (fun _ => 0) label hl

/-- Counterexample for C1 as stated: a list with no self-authored message
(`is_me = false` everywhere) whose row nevertheless carries labels does not
map to the empty result — `build_distribution` never reads `is_me`, so the
non-self row contributes (global count 1). -/
theorem C1_counterexample :
    ([msgNotMe].filter (fun m => m.is_me)) = [] ∧
    build_distribution [msgNotMe] ≠ [("global", _empty_dist 0)] ∧
    (dictGet (build_distribution [msgNotMe]) "global").map Dist.count = some 1 := by
  decide

/-- Witness for C1 at concrete inputs. -/
theorem C1_build_distribution_restricts_witness :
    build_distribution [(⟨"A", false, "x", none, none⟩ : Message)] =
      [("global", _empty_dist 0)] ∧
    getD (_empty_dist 0).style_dist "Brevity" 0 = 0 :=
  ⟨(C1_build_distribution_restricts [⟨"A", false, "x", none, none⟩]).2.1 (by decide),
   (C1_build_distribution_restricts []).2.2.2.1 "Brevity" (by decide)⟩

theorem build_distribution_entry_shape (messages : List Message)
    (p : String × Dist) (hp : p ∈ build_distribution messages) :
    p.2 = _empty_dist 0 ∨ ∃ df, p.2 = _calc_dist df := by
  by_cases h : messages.filter labelled = []
  · rw [build_distribution_of_no_labelled messages h] at hp
    rcases List.mem_singleton.mp hp with rfl
    exact Or.inl rfl
  · rw [build_distribution_of_labelled messages h] at hp
    rcases mem_foldl_pyInsert (fun cp : String => cp)
        (fun cp => _calc_dist ((messages.filter labelled).filter
          (fun m => m.counterparty = cp))) _ _ _ hp with hin | ⟨cp, _, rfl⟩
    · rcases List.mem_singleton.mp hin with rfl
      exact Or.inr ⟨messages.filter labelled, rfl⟩
    · exact Or.inr ⟨_, rfl⟩

/-- C5 (amended): every value in `build_distribution`'s mapping is a record
whose `style_dist` is keyed by exactly the 7 communication labels, whose
`think_dist` is keyed by exactly the 6 thinking labels and whose `count` is an
integer — but the record carries no `confidence` field at all (the claim's
`confidence ∈ [0,1]` clause fails; see the counterexample). -/
theorem C5_distribution_shape (messages : List Message) (cp : String)
    (d : Dist) (hmem : (cp, d) ∈ build_distribution messages) :
    d.style_dist.map Prod.fst = COMM_STYLE_LABELS ∧
    d.think_dist.map Prod.fst = THINK_STYLE_LABELS ∧
    (Dist.toObj d).get "confidence" = none := by
  have hshape := build_distribution_entry_shape messages (cp, d) hmem
  have hkeys : d.style_dist.map Prod.fst = COMM_STYLE_LABELS ∧
      d.think_dist.map Prod.fst = THINK_STYLE_LABELS := by
    rcases hshape with hd | ⟨df, hd⟩
    · rw [show d = _empty_dist 0 from hd]
      constructor <;> simp [_empty_dist, Function.comp_def]
    · rw [show d = _calc_dist df from hd]
      rw [_calc_dist]
      split
      · constructor <;> simp [_empty_dist, Function.comp_def]
      · constructor <;> simp [Function.comp_def]
  refine ⟨hkeys.1, hkeys.2, rfl⟩

/-- Counterexample for C5 as stated: the `"global"` record returned for the
empty input has fields `style_dist`, `think_dist` and `count` but no
`confidence` field. -/
theorem C5_counterexample :
    build_distribution [] = [("global", _empty_dist 0)] ∧
    ((Dist.toObj (_empty_dist 0)).get "confidence").isNone = true ∧
    ((Dist.toObj (_empty_dist 0)).get "count").isSome = true ∧
    ((Dist.toObj (_empty_dist 0)).get "style_dist").isSome = true ∧
    ((Dist.toObj (_empty_dist 0)).get "think_dist").isSome = true :=
  ⟨by decide, rfl, rfl, rfl, rfl⟩

/-- Witness for C5 at a concrete input. -/
theorem C5_distribution_shape_witness :
    (_empty_dist 0).style_dist.map Prod.fst = COMM_STYLE_LABELS ∧
    (_empty_dist 0).think_dist.map Prod.fst = THINK_STYLE_LABELS ∧
    (Dist.toObj (_empty_dist 0)).get "confidence" = none :=
  C5_distribution_shape [] "global" (_empty_dist 0) (by decide)

/-- C9 (amended): when no labelled message has the literal counterparty name
`"global"`, the `"global"` entry of `build_distribution` is the distribution
over all labelled input messages; but when such a counterparty exists, its
per-counterparty distribution silently overwrites the global aggregate
(see the counterexample), contrary to the claim. -/
theorem C9_global_entry (messages : List Message)
    (h : messages.filter labelled ≠ []) :
    ("global" ∉ (messages.filter labelled).map (fun m => m.counterparty) →
      dictGet (build_distribution messages) "global" =
        some (_calc_dist (messages.filter labelled))) ∧
    ("global" ∈ (messages.filter labelled).map (fun m => m.counterparty) →
      dictGet (build_distribution messages) "global" =
        some (_calc_dist ((messages.filter labelled).filter
          (fun m => m.counterparty = "global")))) := by
  constructor
  · intro hng
    rw [build_distribution_of_labelled messages h]
    have hk : "global" ∉
        (uniqueFirst ((messages.filter labelled).map
          (fun m => m.counterparty))).map (fun cp : String => cp) := by
      simpa [List.map_id', mem_uniqueFirst] using hng
    exact (dictGet_foldl_pyInsert_not_mem (fun cp : String => cp)
      (fun cp => _calc_dist ((messages.filter labelled).filter
        (fun m => m.counterparty = cp))) _ _ _ hk).trans rfl
  · intro hg
    rw [build_distribution_of_labelled messages h]
    have hnd : ((uniqueFirst ((messages.filter labelled).map
        (fun m => m.counterparty))).map (fun cp : String => cp)).Nodup := by
      simpa [List.map_id'] using nodup_uniqueFirst _
    exact dictGet_foldl_pyInsert_mem (fun cp : String => cp)
      (fun cp => _calc_dist ((messages.filter labelled).filter
        (fun m => m.counterparty = cp))) _ _ "global"
      ((mem_uniqueFirst _ _).mpr hg) hnd

/-- Counterexample for C9 as stated: with a real counterparty literally named
`"global"`, the `"global"` entry no longer equals the distribution over all
(labelled) input messages — it is silently overwritten by that counterparty's
distribution (count 1 instead of 2). -/
theorem C9_counterexample :
    (dictGet (build_distribution msgsGlobalClash) "global").map Dist.count =
      some 1 ∧
    msgsGlobalClash.length = 2 ∧
    msgsGlobalClash.filter labelled = msgsGlobalClash ∧
    dictGet (build_distribution msgsGlobalClash) "global" ≠
      some (_calc_dist (msgsGlobalClash.filter labelled)) := by
  decide

/-- Witness for C9 at concrete inputs (both the collision-free and the
colliding case). -/
theorem C9_global_entry_witness :
    dictGet (build_distribution [msgTextGlobal]) "global" =
      some (_calc_dist ([msgTextGlobal].filter labelled)) ∧
    dictGet (build_distribution msgsGlobalClash) "global" =
      some (_calc_dist ((msgsGlobalClash.filter labelled).filter
        (fun m => m.counterparty = "global"))) :=
  ⟨(C9_global_entry [msgTextGlobal] (by decide)).1 (by decide),
   (C9_global_entry msgsGlobalClash (by decide)).2 (by decide)⟩

/-- Witness for C8 at concrete inputs: a digit-free text takes the degenerate
branch, while a text containing only full-width digits (`"１ ２"`, two Unicode
Nd runs, so `number_count = 2`) takes the else branch — its Abstractness is
`max 0 (min 1 (-2/5 + 3/10)) = 0`, not `0.1`. -/
theorem C8_abstractness_witness :
    getD (calculate_axis_scores [⟨"A", true, "あ", none, none⟩])
        "Abstractness" 0 = 1/10 ∧
    featuresSum [⟨"A", true, "１ ２", none, none⟩] "number_count" = 2 ∧
    getD (calculate_axis_scores [⟨"A", true, "１ ２", none, none⟩])
        "Abstractness" 0 =
      max 0 (min 1 ((featuresSum [⟨"A", true, "１ ２", none, none⟩] "marker_abstract" -
        (featuresSum [⟨"A", true, "１ ２", none, none⟩] "marker_concrete" +
          featuresSum [⟨"A", true, "１ ２", none, none⟩] "number_count" * (1/5)))
          / ((List.length [(⟨"A", true, "１ ２", none, none⟩ : Message)] : ℕ) : ℚ)
          + 3/10)) :=
  ⟨(C8_abstractness _ (by decide)).1 (by decide),
   by decide,
   (C8_abstractness _ (by decide)).2 (by decide)⟩

theorem t3le_total : ∀ a b : T3Item, t3le a b || t3le b a := by
  intro a b
  simp only [t3le, Bool.or_eq_true, decide_eq_true_eq]
  exact le_total _ _

theorem t3le_trans : ∀ a b c : T3Item, t3le a b → t3le b c → t3le a c := by
  intro a b c hab hbc
  simp only [t3le, decide_eq_true_eq] at hab hbc ⊢
  exact le_trans hbc hab

/-- C6: per-axis diff against the global entry, with missing axis keys on
either side read as 0 via `dict.get(label, 0)`, up to the final
round-to-4-decimals step (`round4`). -/
theorem C6_diff_from_global (dist_result : List (String × Dist))
    (hnd : (dist_result.map Prod.fst).Nodup) (cp : String) (d : Dist)
    (hmem : (cp, d) ∈ dist_result) (hcp : cp ≠ "global") (label : String) :
    (label ∈ COMM_STYLE_LABELS →
      (dictGet (calc_diff_from_global dist_result) cp).map
          (fun dp => getD dp.style_diff label 0) =
        some (round4 (getD d.style_dist label 0 -
          getD (((dictGet dist_result "global").map Dist.style_dist).getD [])
            label 0))) ∧
    (label ∈ THINK_STYLE_LABELS →
      (dictGet (calc_diff_from_global dist_result) cp).map
          (fun dp => getD dp.think_diff label 0) =
        some (round4 (getD d.think_dist label 0 -
          getD (((dictGet dist_result "global").map Dist.think_dist).getD [])
            label 0))) := by
  have hmem2 : (cp, d) ∈ dist_result.filter (fun p => p.1 ≠ "global") :=
    List.mem_filter.mpr ⟨hmem, by simp [hcp]⟩
  have hnd2 : ((dist_result.filter (fun p => p.1 ≠ "global")).map
      Prod.fst).Nodup :=
    hnd.sublist ((List.filter_sublist _).map Prod.fst)
  have hd : dictGet (calc_diff_from_global dist_result) cp =
      some (DiffPair.mk
        (COMM_STYLE_LABELS.map (fun l => (l,
          round4 (getD d.style_dist l 0 -
            getD (((dictGet dist_result "global").map Dist.style_dist).getD [])
              l 0))))
        (THINK_STYLE_LABELS.map (fun l => (l,
          round4 (getD d.think_dist l 0 -
            getD (((dictGet dist_result "global").map Dist.think_dist).getD [])
              l 0))))) :=
    dictGet_map_pairs (dist_result.filter (fun p => p.1 ≠ "global"))
      (fun p => DiffPair.mk
        (COMM_STYLE_LABELS.map (fun l => (l,
          round4 (getD p.2.style_dist l 0 -
            getD (((dictGet dist_result "global").map Dist.style_dist).getD [])
              l 0))))
        (THINK_STYLE_LABELS.map (fun l => (l,
          round4 (getD p.2.think_dist l 0 -
            getD (((dictGet dist_result "global").map Dist.think_dist).getD [])
              l 0)))))
      cp d hmem2 hnd2
  constructor <;> intro hl
  · rw [hd]
    exact congrArg some (getD_map_of_mem COMM_STYLE_LABELS _ label hl)
  · rw [hd]
    exact congrArg some (getD_map_of_mem THINK_STYLE_LABELS _ label hl)

/-- Witness for C6 at a concrete input (one counterparty, no global entry, so
the global side defaults to the empty dict and every axis reads as 0). -/
theorem C6_diff_from_global_witness :
    (dictGet (calc_diff_from_global [("A", _empty_dist 0)]) "A").map
        (fun dp => getD dp.style_diff "Brevity" 0) =
      some (round4 (getD (_empty_dist 0).style_dist "Brevity" 0 -
        getD (((dictGet [("A", _empty_dist 0)] "global").map
          Dist.style_dist).getD []) "Brevity" 0)) ∧
    (dictGet (calc_diff_from_global [("A", _empty_dist 0)]) "A").map
        (fun dp => getD dp.think_diff "Abstractness" 0) =
      some (round4 (getD (_empty_dist 0).think_dist "Abstractness" 0 -
        getD (((dictGet [("A", _empty_dist 0)] "global").map
          Dist.think_dist).getD []) "Abstractness" 0)) :=
  ⟨(C6_diff_from_global _ (by decide) "A" _ (by decide) (by decide)
      "Brevity").1 (by decide),
   (C6_diff_from_global _ (by decide) "A" _ (by decide) (by decide)
      "Abstractness").2 (by decide)⟩

/-- C7: `top3_diff` merges the communication and thinking diffs into one pool
(communication first), stably sorts it by descending absolute diff and takes
the first three (the hard-coded `[:3]` realizes the claimed default `n = 3`);
an absent counterparty yields `[]`.  The stability clause mirrors
`List.sublist_mergeSort`: any `t3le`-sorted sublist of the pool — in
particular any pair of tied items in input order — survives into the sorted
pool in that order. -/
theorem C7_top3_diff (diffs : List (String × DiffPair)) (cp : String) :
    (dictGet diffs cp = none → top3_diff diffs cp = []) ∧
    (∀ dp, dictGet diffs cp = some dp →
      top3_items dp =
        dp.style_diff.map (fun lv => T3Item.mk lv.1 "コミュニケーション" lv.2) ++
          dp.think_diff.map (fun lv => T3Item.mk lv.1 "思考" lv.2) ∧
      top3_diff diffs cp = ((top3_items dp).mergeSort t3le).take 3 ∧
      (top3_diff diffs cp).length ≤ 3 ∧
      (top3_diff diffs cp).Pairwise (fun a b => |b.diff| ≤ |a.diff|) ∧
      ((top3_items dp).mergeSort t3le).Perm (top3_items dp) ∧
      (∀ c : List T3Item, c.Pairwise (fun a b => t3le a b = true) →
        c.Sublist (top3_items dp) →
        c.Sublist ((top3_items dp).mergeSort t3le))) := by
  constructor
  · intro hn
    simp [top3_diff, hn]
  · intro dp hdp
    have htop : top3_diff diffs cp = ((top3_items dp).mergeSort t3le).take 3 := by
      simp [top3_diff, hdp]
    refine ⟨rfl, htop, ?_, ?_, List.mergeSort_perm _ _, ?_⟩
    · rw [htop]
      exact List.length_take_le 3 _
    · rw [htop]
      have hs := List.sorted_mergeSort t3le_trans t3le_total (top3_items dp)
      have h2 := List.Pairwise.sublist (List.take_sublist 3 _) hs
      exact h2.imp (fun hab => by
        simpa only [t3le, decide_eq_true_eq] using hab)
    · intro c hc hsub
      exact List.sublist_mergeSort t3le_trans t3le_total hc hsub

/-- Witness for C7 at concrete inputs (an absent and a present counterparty). -/
theorem C7_top3_diff_witness :
    top3_diff [("A", dpW)] "B" = [] ∧
    top3_diff [("A", dpW)] "A" = ((top3_items dpW).mergeSort t3le).take 3 ∧
    (top3_diff [("A", dpW)] "A").Pairwise (fun a b => |b.diff| ≤ |a.diff|) :=
  ⟨(C7_top3_diff [("A", dpW)] "B").1 (by decide),
   ((C7_top3_diff [("A", dpW)] "A").2 dpW (by decide)).2.1,
   ((C7_top3_diff [("A", dpW)] "A").2 dpW (by decide)).2.2.2.1⟩

theorem labelled_sameView (a b : Message) (h : SameView a b) :
    labelled a = labelled b := by
  rcases h with ⟨_, h2, h3⟩
  simp [labelled, h2, h3]

theorem filter_sameView (p : Message → Bool)
    (hp : ∀ a b, SameView a b → p a = p b) :
    ∀ {l₁ l₂}, List.Forall₂ SameView l₁ l₂ →
      List.Forall₂ SameView (l₁.filter p) (l₂.filter p) := by
  intro l₁ l₂ h
  induction h with
  | nil => exact List.Forall₂.nil
  | cons hab hrest ih =>
    rename_i a b la lb
    simp only [List.filter_cons]
    rw [hp a b hab]
    by_cases hpb : p b = true
    · simp only [hpb, if_true]
      exact List.Forall₂.cons hab ih
    · simp only [hpb, if_false]
      exact ih

theorem calc_dist_sameView {l₁ l₂ : List Message}
    (h : List.Forall₂ SameView l₁ l₂) : _calc_dist l₁ = _calc_dist l₂ := by
  have hlen : l₁.length = l₂.length := h.length_eq
  have hstyle : ∀ label, (l₁.filter
      (fun m => m.style_primary = some label)).length =
        (l₂.filter (fun m => m.style_primary = some label)).length :=
    fun label => (filter_sameView _ (fun a b hab => by simp [hab.2.1]) h).length_eq
  have hthink : ∀ label, (l₁.filter
      (fun m => m.think_primary = some label)).length =
        (l₂.filter (fun m => m.think_primary = some label)).length :=
    fun label => (filter_sameView _ (fun a b hab => by simp [hab.2.2]) h).length_eq
  rw [_calc_dist, _calc_dist, hlen]
  by_cases hc : l₂.length = 0
  · rw [if_pos hc, if_pos hc]
  · rw [if_neg hc, if_neg hc]
    congr 1
    · apply List.map_congr_left
      intro label _
      rw [hstyle label]
    · apply List.map_congr_left
      intro label _
      rw [hthink label]

theorem map_counterparty_sameView {l₁ l₂ : List Message}
    (h : List.Forall₂ SameView l₁ l₂) :
    l₁.map (fun m => m.counterparty) = l₂.map (fun m => m.counterparty) := by
  induction h with
  | nil => rfl
  | cons hab hrest ih =>
    simp only [List.map_cons, ih]
    rw [hab.1]

theorem build_distribution_sameView {l₁ l₂ : List Message}
    (h : List.Forall₂ SameView l₁ l₂) :
    build_distribution l₁ = build_distribution l₂ := by
  have hdf := filter_sameView labelled labelled_sameView h
  by_cases h0 : l₁.filter labelled = []
  · have h0' : l₂.filter labelled = [] := by
      have hl := hdf.length_eq
      rw [h0] at hl
      exact List.length_eq_zero.mp hl.symm
    rw [build_distribution_of_no_labelled _ h0,
      build_distribution_of_no_labelled _ h0']
  · have h0' : l₂.filter labelled ≠ [] := by
      intro hc
      apply h0
      have hl := hdf.length_eq
      rw [hc] at hl
      exact List.length_eq_zero.mp hl
    rw [build_distribution_of_labelled _ h0,
      build_distribution_of_labelled _ h0']
    rw [map_counterparty_sameView hdf, calc_dist_sameView hdf]
    apply foldl_congr_fun
    intro acc cp
    rw [calc_dist_sameView (filter_sameView _ (fun a b hab => by simp [hab.1]) hdf)]

/-- C2 (amended): the summary object is a function of the messages'
`counterparty`, `style_primary` and `think_primary` fields only — message
`text` (and `is_me`) never flows into it.  The universally quantified claim
"the serialized output never contains any message's literal text" is false as
stated, because the summary's fixed keys (e.g. `"global"`) and counterparty
display names can coincide with a message's text (see the counterexample). -/
theorem C2_summary_text_noninterference (l₁ l₂ : List Message)
    (h : List.Forall₂ SameView l₁ l₂) (my_name : String)
    (pyHash : String → ℤ) :
    build_summary_json (build_distribution l₁)
        (calc_diff_from_global (build_distribution l₁)) my_name pyHash =
      build_summary_json (build_distribution l₂)
        (calc_diff_from_global (build_distribution l₂)) my_name pyHash := by
  rw [build_distribution_sameView h]

/-- Witness for C2 at concrete inputs: two message lists differing only in
their texts produce identical summaries. -/
theorem C2_summary_text_noninterference_witness :
    mHello.text ≠ mSecret.text ∧
    build_summary_json (build_distribution [mHello])
        (calc_diff_from_global (build_distribution [mHello])) "me" (fun _ => 0) =
      build_summary_json (build_distribution [mSecret])
        (calc_diff_from_global (build_distribution [mSecret])) "me" (fun _ => 0) :=
  ⟨by decide,
   C2_summary_text_noninterference [mHello] [mSecret]
     (List.Forall₂.cons ⟨rfl, rfl, rfl⟩ List.Forall₂.nil) "me" (fun _ => 0)⟩

/-- Counterexample for C2 as stated: a message whose text is the string
`"global"` — the serialized summary contains that text (as the fixed
`"global"` key), so searching the serialized output for the literal text of
this input message yields a match. -/
theorem C2_counterexample :
    msgTextGlobal.text ∈ [msgTextGlobal].map Message.text ∧
    hasSub msgTextGlobal.text.data (JVal.ser summaryTextGlobal).data = true := by
  decide

/-- C10: `build_summary_json` files each non-global counterparty under its
hash-derived pseudonym key `room_XXXXX`, yet stores the counterparty's real
display name verbatim in that entry's `display_name` field — counterparty
names, unlike message text, are not stripped from the exported summary.
(The no-collision hypothesis `hnd` reflects the intended injective use of the
random hash.) -/
theorem C10_display_name_in_summary (dist_result : List (String × Dist))
    (diffs : List (String × DiffPair)) (my_name : String)
    (pyHash : String → ℤ) (cp : String) (d : Dist)
    (hmem : (cp, d) ∈ dist_result) (hcp : cp ≠ "global")
    (hnd : ((dist_result.filter (fun p => p.1 ≠ "global")).map
      (fun p => roomKey pyHash p.1)).Nodup) :
    ((build_summary_json dist_result diffs my_name pyHash).get
        "by_counterparty").bind
      (fun o => (o.get (roomKey pyHash cp)).bind
        (fun e => e.get "display_name")) = some (.str cp) := by
  have h1 : (build_summary_json dist_result diffs my_name pyHash).get
      "by_counterparty" =
        some (.obj (by_counterparty_obj dist_result diffs pyHash)) := rfl
  rw [h1]
  have hmem2 : (cp, d) ∈ dist_result.filter (fun p => p.1 ≠ "global") :=
    List.mem_filter.mpr ⟨hmem, by simp [hcp]⟩
  have h2 : (JVal.obj (by_counterparty_obj dist_result diffs pyHash)).get
      (roomKey pyHash cp) = some (cp_entry diffs (cp, d)) :=
    dictGet_foldl_pyInsert_mem (fun p : String × Dist => roomKey pyHash p.1)
      (cp_entry diffs) _ _ (cp, d) hmem2 hnd
  simp only [Option.some_bind]
  rw [h2]
  rfl

/-- Witness for C10 at a concrete input. -/
theorem C10_display_name_in_summary_witness :
    ((build_summary_json [("global", _empty_dist 0), ("A", _empty_dist 0)]
        [] "me" (fun _ => 0)).get "by_counterparty").bind
      (fun o => (o.get (roomKey (fun _ => 0) "A")).bind
        (fun e => e.get "display_name")) = some (.str "A") :=
  C10_display_name_in_summary _ _ "me" (fun _ => 0) "A" (_empty_dist 0)
    (by decide) (by decide) (by decide)

end ZenbuJibun
